import Mathlib

/-!
# Verification of the Travel Booking System data model and operations

Shallow embedding of the Django application in `src/project/` (models.py,
forms.py, views.py, admin.py) and the seeding script `src/populate_data.py`.

Modelling conventions:
* `DecimalField(decimal_places=2)` money values are exact multiples of 0.01;
  they are embedded as integer counts of cents (`Money := Int`), so
  `Decimal('2499.00')` is the value `249900`.
* `DateField` / `DateTimeField` values are embedded as `Int` (day / instant
  ordinals); only their ordering and equality are used by the code.
* A database state is four lists of rows plus the auto-increment counters of
  the four tables.  `auto_now_add` timestamps that no code path reads
  (`created_at`, `updated_at`) are omitted from the row types.
* Fallible operations (form validation, ORM lookups that can raise) are
  embedded as `Except String`.
-/

/-- Money values of Django `DecimalField` columns, in cents. -/
abbrev Money := Int

/-- Row of the `Destination` model (models.py lines 11-27). -/
structure Destination where
  id : Nat
  name : String
  country : String
  description : String
  image_url : Option String
deriving Repr, DecidableEq

/-- Row of the `TravelPackage` model (models.py lines 30-70).
`destination` is a `ForeignKey(Destination, on_delete=CASCADE)`, stored as
the column `destination_id`. -/
structure TravelPackage where
  id : Nat
  destination_id : Nat
  name : String
  price : Money
  start_date : Int
  end_date : Int
  duration_days : Int
  itinerary : String
  available_spots : Int
deriving Repr, DecidableEq

/-- Row of the `Customer` model (models.py lines 73-94). -/
structure Customer where
  id : Nat
  first_name : String
  last_name : String
  email : String
  phone : String
  address : String
deriving Repr, DecidableEq

/-- The four values of `Booking.STATUS_CHOICES` (models.py lines 102-107). -/
inductive BookingStatus where
  | pending
  | confirmed
  | cancelled
  | completed
deriving Repr, DecidableEq

/-- The stored database value of a status choice. -/
def BookingStatus.value : BookingStatus → String
  | .pending => "pending"
  | .confirmed => "confirmed"
  | .cancelled => "cancelled"
  | .completed => "completed"

/-- Row of the `Booking` model (models.py lines 97-149); `customer` and
`travel_package` are `ForeignKey(..., on_delete=CASCADE)` columns. -/
structure Booking where
  id : Nat
  customer_id : Nat
  travel_package_id : Nat
  booking_date : Int
  status : BookingStatus
  number_of_people : Int
  total_price : Money
  notes : String
deriving Repr, DecidableEq

/-- A database state: the four tables plus their auto-increment pk counters. -/
structure DB where
  destinations : List Destination
  packages : List TravelPackage
  customers : List Customer
  bookings : List Booking
  next_destination_id : Nat
  next_package_id : Nat
  next_customer_id : Nat
  next_booking_id : Nat
deriving Repr, DecidableEq

/-- ORM primary-key lookup of a travel package. -/
def DB.findPackage (db : DB) (pid : Nat) : Option TravelPackage :=
  db.packages.find? (fun p => p.id == pid)

/-- ORM primary-key lookup of a customer. -/
def DB.findCustomer (db : DB) (cid : Nat) : Option Customer :=
  db.customers.find? (fun c => c.id == cid)

/-- ORM primary-key lookup of a destination. -/
def DB.findDestination (db : DB) (did : Nat) : Option Destination :=
  db.destinations.find? (fun d => d.id == did)

/-- `Booking.calculate_total_price` (models.py lines 147-149):
`self.number_of_people * self.travel_package.price`.  The referenced
package row is passed explicitly. -/
def Booking.calculate_total_price (b : Booking) (pkg : TravelPackage) : Money :=
  (b.number_of_people : Money) * pkg.price

/-- `TravelPackageForm.clean` (forms.py lines 36-45): with both dates present
it raises `ValidationError` exactly when `end_date <= start_date`;
a missing date is `None` in `cleaned_data` and the check is skipped. -/
def TravelPackageForm.clean (start_date end_date : Option Int) : Except String Unit :=
  match start_date, end_date with
  | some s, some e =>
    if e ≤ s then .error "End date must be after start date." else .ok ()
  | _, _ => .ok ()

/-- The portion of `BookingForm`'s `cleaned_data` that `clean` reads and
writes (forms.py lines 85-101).  A field that failed its own field-level
validation (or was left empty) is absent (`none`), exactly as
`cleaned_data.get(...)` returns `None` for it. -/
structure BookingCleanedData where
  customer : Option Customer
  travel_package : Option TravelPackage
  status : BookingStatus
  number_of_people : Option Int
  total_price : Option Money
  notes : String
deriving Repr, DecidableEq

/-- Python truthiness of an optional `Decimal`: `None` and `0` are falsy. -/
def decimalTruthy (v : Option Money) : Bool :=
  match v with
  | none => false
  | some x => x != 0

/-- `BookingForm.clean` (forms.py lines 85-101).  Mirrors
`if travel_package and number_of_people:` (a model instance is always
truthy; an `int` is truthy iff nonzero), the availability check
`number_of_people > travel_package.available_spots`, and the
auto-calculation `travel_package.price * number_of_people` performed when
`cleaned_data.get('total_price')` is falsy. -/
def BookingForm.clean (cd : BookingCleanedData) : Except String BookingCleanedData :=
  match cd.travel_package, cd.number_of_people with
  | some pkg, some n =>
    if n == 0 then .ok cd
    else if pkg.available_spots < n then
      .error ("Only " ++ toString pkg.available_spots ++ " spots available for this package.")
    else if decimalTruthy cd.total_price then .ok cd
    else .ok { cd with total_price := some (pkg.price * (n : Money)) }
  | _, _ => .ok cd

/-- Field-level cleaning and whole-form validation of `BookingForm`:
* `customer`, `travel_package` are `ModelChoiceField`s — an id that matches
  no row is a field error;
* `number_of_people` has `MinValueValidator(1)` (models.py line 129);
* `total_price` has `MinValueValidator(Decimal('0.01'))` (models.py
  line 135) and, per `BookingForm.__init__` (forms.py lines 78-83), is
  required only when editing an existing booking (`is_new = false`);
* after field cleaning, `BookingForm.clean` runs on the partial
  `cleaned_data`; the form is valid iff no field error and no clean error.
The raw submitted values are the `BookingFormInput` fields; `total_price`
is `none` when the input was left blank. -/
structure BookingFormInput where
  customer : Nat
  travel_package : Nat
  status : BookingStatus
  number_of_people : Int
  total_price : Option Money
  notes : String
deriving Repr, DecidableEq

/-- Whole-form validation of `BookingForm` against database state `db`.
Returns the final `cleaned_data` on success. -/
def BookingForm.validate (db : DB) (inp : BookingFormInput) (is_new : Bool) :
    Except String BookingCleanedData :=
  let customer? := db.findCustomer inp.customer
  let package? := db.findPackage inp.travel_package
  let n? : Option Int :=
    if 1 ≤ inp.number_of_people then some inp.number_of_people else none
  let tp? : Option Money :=
    match inp.total_price with
    | some v => if (1 : Money) ≤ v then some v else none
    | none => none
  let fieldOk : Bool :=
    customer?.isSome && package?.isSome && n?.isSome &&
      (match inp.total_price with
       | some v => decide ((1 : Money) ≤ v)
       | none => is_new)
  let cd : BookingCleanedData :=
    { customer := customer?, travel_package := package?, status := inp.status,
      number_of_people := n?, total_price := tp?, notes := inp.notes }
  match BookingForm.clean cd with
  | .error m => .error m
  | .ok cd' => if fieldOk then .ok cd' else .error "field validation failed"

/-- `BookingCreateView` (views.py lines 288-293) submitting `BookingForm`
with no instance: on valid data `form.save()` inserts exactly one booking
row built from `cleaned_data`; on invalid data nothing is persisted.
`now` is the `auto_now_add` value for `booking_date`. -/
def BookingCreateView.submit (db : DB) (inp : BookingFormInput) (now : Int) :
    Except String DB :=
  match BookingForm.validate db inp true with
  | .error m => .error m
  | .ok cd =>
    match cd.customer, cd.travel_package, cd.number_of_people, cd.total_price with
    | some c, some pkg, some n, some tp =>
      .ok { db with
            bookings := db.bookings ++
              [{ id := db.next_booking_id, customer_id := c.id,
                 travel_package_id := pkg.id, booking_date := now,
                 status := cd.status, number_of_people := n,
                 total_price := tp, notes := cd.notes }],
            next_booking_id := db.next_booking_id + 1 }
    | _, _, _, _ => .error "incomplete cleaned data"

/-- `BookingUpdateView` (views.py lines 296-301) submitting `BookingForm`
for the existing booking `bid`: on valid data the row's editable fields are
overwritten from `cleaned_data` (`booking_date` has `auto_now_add` and is
never rewritten); on invalid data nothing is persisted. -/
def BookingUpdateView.submit (db : DB) (bid : Nat) (inp : BookingFormInput) :
    Except String DB :=
  match BookingForm.validate db inp false with
  | .error m => .error m
  | .ok cd =>
    match cd.customer, cd.travel_package, cd.number_of_people, cd.total_price with
    | some c, some pkg, some n, some tp =>
      .ok { db with
            bookings := db.bookings.map (fun b =>
              if b.id == bid then
                { b with customer_id := c.id, travel_package_id := pkg.id,
                         status := cd.status, number_of_people := n,
                         total_price := tp, notes := cd.notes }
              else b) }
    | _, _, _, _ => .error "incomplete cleaned data"

/-- `DestinationDeleteView` (views.py lines 89-93): the ORM delete of a
destination row with `on_delete=CASCADE` declared on
`TravelPackage.destination` (models.py lines 35-40) and on the booking
foreign keys (models.py lines 109-120): the destination is removed,
every package referencing it is removed, and every booking referencing
one of those packages is removed; customers are untouched. -/
def DestinationDeleteView.submit (db : DB) (did : Nat) : DB :=
  let deleted_pkgs := db.packages.filter (fun p => p.destination_id == did)
  { db with
    destinations := db.destinations.filter (fun d => !(d.id == did)),
    packages := db.packages.filter (fun p => !(p.destination_id == did)),
    bookings := db.bookings.filter (fun b =>
      !(deleted_pkgs.any (fun p => p.id == b.travel_package_id))) }

/-- `CustomerDeleteView` (views.py lines 235-239): cascade removes the
customer's bookings (models.py lines 109-114). -/
def CustomerDeleteView.submit (db : DB) (cid : Nat) : DB :=
  { db with
    customers := db.customers.filter (fun c => !(c.id == cid)),
    bookings := db.bookings.filter (fun b => !(b.customer_id == cid)) }

/-- `TravelPackageDeleteView` (views.py lines 172-176): cascade removes the
package's bookings (models.py lines 115-120). -/
def TravelPackageDeleteView.submit (db : DB) (pid : Nat) : DB :=
  { db with
    packages := db.packages.filter (fun p => !(p.id == pid)),
    bookings := db.bookings.filter (fun b => !(b.travel_package_id == pid)) }

/-! ## Query/filter layer (views.py) -/

/-- Contiguous-sublist test on character lists, the semantics of SQL
`LIKE '%needle%'` used by `icontains` once both sides are lower-cased. -/
def charsContain (needle : List Char) : List Char → Bool
  | [] => needle.isEmpty
  | c :: rest => needle.isPrefixOf (c :: rest) || charsContain needle rest

/-- ASCII lower-casing of one character. -/
def lowerChar (c : Char) : Char :=
  if 65 ≤ c.toNat && c.toNat ≤ 90 then Char.ofNat (c.toNat + 32) else c

/-- Lower-casing of a string, as a character list. -/
def lowerList (s : String) : List Char := s.toList.map lowerChar

/-- Django `field__icontains=q`: case-insensitive substring match. -/
def icontains (field q : String) : Bool :=
  charsContain (lowerList q) (lowerList field)

/-- Value of a nonempty all-digit character list, `none` otherwise: the
successful outcomes of Python `int(...)` on the inputs the claims range
over. -/
def digitsToNat? (cs : List Char) : Option Nat :=
  if cs.isEmpty then none
  else cs.foldl (fun acc c =>
    acc.bind (fun n => if c.isDigit then some (n * 10 + (c.toNat - 48)) else none))
    (some 0)

/-- `int(...)` coercion of a query-string pk value. -/
def parseId (s : String) : Option Nat := digitsToNat? s.toList

/-- Splitting a character list at every occurrence of `sep`. -/
def splitOnChar (sep : Char) : List Char → List (List Char)
  | [] => [[]]
  | c :: rest =>
    let r := splitOnChar sep rest
    if c == sep then [] :: r
    else
      match r with
      | h :: t => (c :: h) :: t
      | [] => [[c]]

/-- Coercion of a query-string value to a `Decimal` by the ORM for a
`price__gte` / `price__lte` lookup: `digits` or `digits.digits` with at
most two fractional digits (`decimal_places=2`), in cents. -/
def parseDecimal (s : String) : Option Money :=
  match splitOnChar '.' s.toList with
  | [i] => (digitsToNat? i).map (fun n => (n : Money) * 100)
  | [i, f] =>
    if f.length ≤ 2 then
      match digitsToNat? i, digitsToNat? f with
      | some a, some b => some ((a : Money) * 100 + (b : Money) * 10 ^ (2 - f.length))
      | _, _ => none
    else none
  | _ => none

/-- A GET query parameter: `none` when absent from the query string.
`request.GET.get(key, '')` maps both absence and the empty string to `''`. -/
def getParam (p : Option String) : String := p.getD ""

/-- `DestinationListView.get_queryset` (views.py lines 36-51), starting
from the default-ordered queryset (ordering is handled separately by
`destinationBaseline`; filtering commutes with ordering and membership is
order-independent, so the filter layer is stated on the raw table). -/
def DestinationListView.querysetFilter (search country : Option String)
    (qs : List Destination) : List Destination :=
  let sq := getParam search
  let qs :=
    if sq.isEmpty then qs
    else qs.filter (fun d =>
      icontains d.name sq || icontains d.country sq || icontains d.description sq)
  let cf := getParam country
  if cf.isEmpty then qs else qs.filter (fun d => icontains d.country cf)

/-- The optional GET parameters of `TravelPackageListView.get_queryset`
(views.py lines 104-131). -/
structure PackageListQuery where
  search : Option String
  destination : Option String
  min_price : Option String
  max_price : Option String
  available_only : Option String
deriving Repr, DecidableEq

/-- The search predicate of `TravelPackageListView`:
`Q(name__icontains) | Q(destination__name__icontains) | Q(itinerary__icontains)`;
the second disjunct joins to the package's destination row. -/
def packageSearchHit (db : DB) (sq : String) (p : TravelPackage) : Bool :=
  icontains p.name sq ||
    (match db.findDestination p.destination_id with
     | some d => icontains d.name sq
     | none => false) ||
    icontains p.itinerary sq

/-- `if destination_filter: queryset.filter(destination_id=destination_filter)`;
the ORM coerces the string to an integer pk and raises on a malformed value. -/
def packageDestinationStage (df : String) (qs : List TravelPackage) :
    Except String (List TravelPackage) :=
  if df.isEmpty then .ok qs
  else match parseId df with
    | some i => .ok (qs.filter (fun p => p.destination_id == i))
    | none => .error "invalid destination id"

/-- `if min_price: queryset.filter(price__gte=min_price)`. -/
def packageMinPriceStage (s : String) (qs : List TravelPackage) :
    Except String (List TravelPackage) :=
  if s.isEmpty then .ok qs
  else match parseDecimal s with
    | some v => .ok (qs.filter (fun p => decide (v ≤ p.price)))
    | none => .error "invalid min_price"

/-- `if max_price: queryset.filter(price__lte=max_price)`. -/
def packageMaxPriceStage (s : String) (qs : List TravelPackage) :
    Except String (List TravelPackage) :=
  if s.isEmpty then .ok qs
  else match parseDecimal s with
    | some v => .ok (qs.filter (fun p => decide (p.price ≤ v)))
    | none => .error "invalid max_price"

/-- `if available_only: queryset.filter(available_spots__gt=0)`. -/
def packageAvailableStage (s : String) (qs : List TravelPackage) :
    List TravelPackage :=
  if s.isEmpty then qs else qs.filter (fun p => decide (0 < p.available_spots))

/-- `TravelPackageListView.get_queryset` (views.py lines 104-131): the five
conditional filters applied in source order to the queryset `qs`. -/
def TravelPackageListView.querysetFilter (db : DB) (q : PackageListQuery)
    (qs : List TravelPackage) : Except String (List TravelPackage) :=
  let sq := getParam q.search
  let qs := if sq.isEmpty then qs else qs.filter (packageSearchHit db sq)
  (packageDestinationStage (getParam q.destination) qs).bind (fun qs =>
    (packageMinPriceStage (getParam q.min_price) qs).bind (fun qs =>
      (packageMaxPriceStage (getParam q.max_price) qs).bind (fun qs =>
        .ok (packageAvailableStage (getParam q.available_only) qs))))

/-- The optional GET parameters of `BookingListView.get_queryset`
(views.py lines 250-269). -/
structure BookingListQuery where
  search : Option String
  status : Option String
  customer : Option String
deriving Repr, DecidableEq

/-- The search predicate of `BookingListView`:
`Q(customer__first_name__icontains) | Q(customer__last_name__icontains) |
Q(travel_package__name__icontains)`. -/
def bookingSearchHit (db : DB) (sq : String) (b : Booking) : Bool :=
  (match db.findCustomer b.customer_id with
   | some c => icontains c.first_name sq || icontains c.last_name sq
   | none => false) ||
    (match db.findPackage b.travel_package_id with
     | some p => icontains p.name sq
     | none => false)

/-- `if customer_filter: queryset.filter(customer_id=customer_filter)`. -/
def bookingCustomerStage (cf : String) (qs : List Booking) :
    Except String (List Booking) :=
  if cf.isEmpty then .ok qs
  else match parseId cf with
    | some i => .ok (qs.filter (fun b => b.customer_id == i))
    | none => .error "invalid customer id"

/-- `BookingListView.get_queryset` (views.py lines 250-269): search filter,
then `filter(status=status_filter)` (exact match on the stored status
string), then the customer pk filter. -/
def BookingListView.querysetFilter (db : DB) (q : BookingListQuery)
    (qs : List Booking) : Except String (List Booking) :=
  let sq := getParam q.search
  let qs := if sq.isEmpty then qs else qs.filter (bookingSearchHit db sq)
  let sf := getParam q.status
  let qs := if sf.isEmpty then qs else qs.filter (fun b => b.status.value == sf)
  bookingCustomerStage (getParam q.customer) qs

/-- `CustomerListView.get_queryset` (views.py lines 187-199). -/
def CustomerListView.querysetFilter (search : Option String)
    (qs : List Customer) : List Customer :=
  let sq := getParam search
  if sq.isEmpty then qs
  else qs.filter (fun c =>
    icontains c.first_name sq || icontains c.last_name sq ||
      icontains c.email sq || icontains c.phone sq)

/-! ## Default orderings (`Meta.ordering`, models.py lines 23-24, 62-63,
86-87, 141-142) -/

/-- Strict lexicographic order on character lists: the text collation in
which the `Meta.ordering` results are stated. -/
def charsLt : List Char → List Char → Bool
  | [], [] => false
  | [], _ :: _ => true
  | _ :: _, [] => false
  | a :: as, b :: bs => if a == b then charsLt as bs else decide (a < b)

/-- Non-strict lexicographic order on character lists. -/
def charsLe : List Char → List Char → Bool
  | [], _ => true
  | _ :: _, [] => false
  | a :: as, b :: bs => if a == b then charsLe as bs else decide (a < b)

/-- Strict text order on strings. -/
def strLt (a b : String) : Bool := charsLt a.toList b.toList

/-- Non-strict text order on strings. -/
def strLe (a b : String) : Bool := charsLe a.toList b.toList

/-- `ORDER BY f, g` on two text columns. -/
def textLex {α : Type} (f g : α → String) (a b : α) : Bool :=
  strLt (f a) (f b) || (f a == f b && strLe (g a) (g b))

/-- `ORDER BY f, <rest>` with a leading integer column. -/
def intThen {α : Type} (f : α → Int) (rest : α → α → Bool) (a b : α) : Bool :=
  decide (f a < f b) || (f a == f b && rest a b)

/-- `Destination.Meta.ordering = ['country', 'name']`. -/
def destinationOrdering : Destination → Destination → Bool :=
  textLex (fun d => d.country) (fun d => d.name)

/-- `Customer.Meta.ordering = ['last_name', 'first_name']`. -/
def customerOrdering : Customer → Customer → Bool :=
  textLex (fun c => c.last_name) (fun c => c.first_name)

/-- `Booking.Meta.ordering = ['-booking_date']`: descending. -/
def bookingOrdering (a b : Booking) : Bool :=
  decide (b.booking_date ≤ a.booking_date)

/-- Country of the destination row a package joins to. -/
def destCountry (db : DB) (p : TravelPackage) : String :=
  match db.findDestination p.destination_id with
  | some d => d.country
  | none => ""

/-- Name of the destination row a package joins to. -/
def destName (db : DB) (p : TravelPackage) : String :=
  match db.findDestination p.destination_id with
  | some d => d.name
  | none => ""

/-- `TravelPackage.Meta.ordering = ['start_date', 'destination']`.
Ordering by the `destination` foreign key applies the related model's
default ordering, i.e. the destination's `['country', 'name']`. -/
def packageOrdering (db : DB) : TravelPackage → TravelPackage → Bool :=
  intThen (fun p => p.start_date) (textLex (destCountry db) (destName db))

/-- The default-ordered destination queryset (`Destination.objects.all()`).
The ORM guarantees an `ORDER BY` result (a sorted permutation of the
table); a stable insertion sort realises it here. -/
def DB.destinationQuerysetBase (db : DB) : List Destination :=
  List.insertionSort (fun a b => destinationOrdering a b = true) db.destinations

/-- The default-ordered package queryset. -/
def DB.packageQuerysetBase (db : DB) : List TravelPackage :=
  List.insertionSort (fun a b => packageOrdering db a b = true) db.packages

/-- The default-ordered customer queryset. -/
def DB.customerQuerysetBase (db : DB) : List Customer :=
  List.insertionSort (fun a b => customerOrdering a b = true) db.customers

/-- The default-ordered booking queryset. -/
def DB.bookingQuerysetBase (db : DB) : List Booking :=
  List.insertionSort (fun a b => bookingOrdering a b = true) db.bookings

/-- `DestinationListView.get_queryset`: default ordering, then filters. -/
def DestinationListView.queryset (db : DB) (search country : Option String) :
    List Destination :=
  DestinationListView.querysetFilter search country db.destinationQuerysetBase

/-- `TravelPackageListView.get_queryset`: default ordering, then filters. -/
def TravelPackageListView.queryset (db : DB) (q : PackageListQuery) :
    Except String (List TravelPackage) :=
  TravelPackageListView.querysetFilter db q db.packageQuerysetBase

/-- `BookingListView.get_queryset`: default ordering, then filters. -/
def BookingListView.queryset (db : DB) (q : BookingListQuery) :
    Except String (List Booking) :=
  BookingListView.querysetFilter db q db.bookingQuerysetBase

/-- `CustomerListView.get_queryset`: default ordering, then filters. -/
def CustomerListView.queryset (db : DB) (search : Option String) :
    List Customer :=
  CustomerListView.querysetFilter search db.customerQuerysetBase

/-! ## Admin layer (admin.py) -/

/-- `BookingAdmin.save_model` (admin.py lines 94-98): for a new booking
(`change = False`) it assigns `obj.total_price = obj.calculate_total_price()`
before saving; for an edit it saves `obj` as submitted. Returns the row
that is persisted. -/
def BookingAdmin.save_model (obj : Booking) (pkg : TravelPackage)
    (change : Bool) : Booking :=
  if !change then { obj with total_price := obj.calculate_total_price pkg }
  else obj

/-! ## Seeding routine (src/populate_data.py)

`populate_database` seeds 5 destinations, 5 packages, 5 customers and
5 bookings with `Model.objects.get_or_create(...)`.  `get_or_create` calls
`get()` on the key fields — raising `MultipleObjectsReturned` when several
rows match — and creates a fresh row from key fields plus `defaults` when
none matches.  The admin-user setup (an auth-table concern) is outside the
modelled state.  `today` stands for `date.today()` (and the `auto_now_add`
instant of created bookings). -/

/-- One `Model.objects.get_or_create` call against table `table` whose
auto-increment counter is `next_id`: `key` is the conjunction of the lookup
kwargs, `mk i` the row built from lookup kwargs plus `defaults` with pk `i`. -/
def getOrCreateRow {ρ : Type} (table : List ρ) (next_id : Nat)
    (key : ρ → Bool) (mk : Nat → ρ) : Except String (List ρ × Nat × ρ) :=
  match table.filter key with
  | [] => .ok (table ++ [mk next_id], next_id + 1, mk next_id)
  | [r] => .ok (table, next_id, r)
  | _ :: _ :: _ => .error "get() returned more than one row"

/-- One seeding loop (`for data in ...: Model.objects.get_or_create(...)`),
collecting the found-or-created rows in order. -/
def getOrCreateMany {ρ σ : Type} (keyOf : σ → ρ → Bool) (mkOf : σ → Nat → ρ) :
    List ρ → Nat → List σ → Except String (List ρ × Nat × List ρ)
  | table, n, [] => .ok (table, n, [])
  | table, n, d :: ds =>
    match getOrCreateRow table n (keyOf d) (mkOf d) with
    | .error m => .error m
    | .ok (t', n', r) =>
      match getOrCreateMany keyOf mkOf t' n' ds with
      | .error m => .error m
      | .ok (t'', n'', rs) => .ok (t'', n'', r :: rs)

/-- One record of `destinations_data` (populate_data.py lines 37-68). -/
structure DestinationSeed where
  name : String
  country : String
  description : String
  image_url : String
deriving Repr, DecidableEq

/-- `destinations_data` (populate_data.py lines 37-68). -/
def destinations_data : List DestinationSeed :=
  [ { name := "Tokyo", country := "Japan",
      description := "Experience the vibrant blend of traditional and modern culture in Japan's bustling capital city. Visit ancient temples, enjoy world-class sushi, and explore the neon-lit streets of Shibuya and Shinjuku.",
      image_url := "https://images.unsplash.com/photo-1540959733332-eab4deabeeaf" },
    { name := "Paris", country := "France",
      description := "The City of Light offers iconic landmarks like the Eiffel Tower, world-renowned museums including the Louvre, charming cafes, and exquisite French cuisine.",
      image_url := "https://images.unsplash.com/photo-1502602898657-3e91760cbb34" },
    { name := "Bali", country := "Indonesia",
      description := "A tropical paradise featuring stunning beaches, lush rice terraces, ancient temples, and a rich cultural heritage. Perfect for relaxation and adventure.",
      image_url := "https://images.unsplash.com/photo-1537996194471-e657df975ab4" },
    { name := "New York City", country := "USA",
      description := "The city that never sleeps offers world-class museums, Broadway shows, iconic landmarks like the Statue of Liberty, and diverse neighborhoods to explore.",
      image_url := "https://images.unsplash.com/photo-1496442226666-8d4d0e62e6e9" },
    { name := "Santorini", country := "Greece",
      description := "Famous for its white-washed buildings with blue domes, stunning sunsets, beautiful beaches, and excellent Mediterranean cuisine.",
      image_url := "https://images.unsplash.com/photo-1613395877344-13d4a8e0d49e" } ]

/-- Lookup key of the destination loop: `name` and `country`
(populate_data.py lines 72-74). -/
def destinationKey (s : DestinationSeed) (d : Destination) : Bool :=
  d.name == s.name && d.country == s.country

/-- Row created by the destination loop when no row matches. -/
def destinationMk (s : DestinationSeed) (i : Nat) : Destination :=
  { id := i, name := s.name, country := s.country,
    description := s.description, image_url := some s.image_url }

/-- One record of `packages_data` with its destination reference resolved
to a pk, as the loop resolves `pkg_data['destination']`. -/
structure PackageSeed where
  destination_id : Nat
  name : String
  price : Money
  start_date : Int
  duration_days : Int
  itinerary : String
  available_spots : Int
deriving Repr, DecidableEq

/-- A placeholder destination for out-of-range list indexing; the
destination loop always yields exactly 5 rows, so `packages_data` never
actually reads it. -/
def noDestination : Destination :=
  { id := 0, name := "", country := "", description := "", image_url := none }

/-- `packages_data` (populate_data.py lines 85-157): `destinations[i]`
references into the list returned by the destination loop. -/
def packages_data (today : Int) (dests : List Destination) : List PackageSeed :=
  [ { destination_id := (dests.getD 0 noDestination).id,
      name := "Tokyo Adventure Week", price := 249900,
      start_date := today + 30, duration_days := 7,
      itinerary := "Day 1: Arrival in Tokyo, hotel check-in, evening walk in Shibuya\nDay 2: Visit Senso-ji Temple, Akihabara electronics district\nDay 3: Day trip to Mt. Fuji and Hakone\nDay 4: Tsukiji Fish Market, Imperial Palace, Ginza shopping\nDay 5: Harajuku, Meiji Shrine, teamLab Borderless\nDay 6: Day trip to Nikko\nDay 7: Last-minute shopping, departure",
      available_spots := 15 },
    { destination_id := (dests.getD 0 noDestination).id,
      name := "Tokyo Food & Culture Tour", price := 189900,
      start_date := today + 45, duration_days := 5,
      itinerary := "Day 1: Arrival, traditional kaiseki dinner\nDay 2: Sushi making class, Tsukiji market tour\nDay 3: Ramen museum, traditional tea ceremony\nDay 4: Street food tour in Asakusa\nDay 5: Last breakfast, departure",
      available_spots := 10 },
    { destination_id := (dests.getD 1 noDestination).id,
      name := "Romantic Paris Getaway", price := 219900,
      start_date := today + 60, duration_days := 6,
      itinerary := "Day 1: Arrival, Seine River cruise\nDay 2: Eiffel Tower, Champs-Élysées\nDay 3: Louvre Museum, Latin Quarter\nDay 4: Versailles Palace day trip\nDay 5: Montmartre, Sacré-Cœur\nDay 6: Last-minute shopping, departure",
      available_spots := 20 },
    { destination_id := (dests.getD 2 noDestination).id,
      name := "Bali Beach & Culture", price := 159900,
      start_date := today + 40, duration_days := 8,
      itinerary := "Day 1: Arrival in Bali, beach resort check-in\nDay 2: Ubud rice terraces, monkey forest\nDay 3: Temple tour (Tanah Lot, Uluwatu)\nDay 4: Snorkeling and water sports\nDay 5: Traditional Balinese cooking class\nDay 6: Spa day and relaxation\nDay 7: Sunrise trek to Mt. Batur\nDay 8: Departure",
      available_spots := 12 },
    { destination_id := (dests.getD 3 noDestination).id,
      name := "New York City Explorer", price := 199900,
      start_date := today + 20, duration_days := 5,
      itinerary := "Day 1: Arrival, Times Square, Broadway show\nDay 2: Statue of Liberty, Ellis Island, 9/11 Memorial\nDay 3: Central Park, Metropolitan Museum of Art\nDay 4: Brooklyn Bridge, DUMBO, Williamsburg\nDay 5: Last-minute shopping, departure",
      available_spots := 18 } ]

/-- Lookup key of the package loop: `name` and `destination`
(populate_data.py lines 162-164). -/
def packageKey (s : PackageSeed) (p : TravelPackage) : Bool :=
  p.name == s.name && p.destination_id == s.destination_id

/-- Row created by the package loop; `end_date = start_date +
timedelta(days=duration_days)` (populate_data.py line 161). -/
def packageMk (s : PackageSeed) (i : Nat) : TravelPackage :=
  { id := i, destination_id := s.destination_id, name := s.name,
    price := s.price, start_date := s.start_date,
    end_date := s.start_date + s.duration_days,
    duration_days := s.duration_days, itinerary := s.itinerary,
    available_spots := s.available_spots }

/-- One record of `customers_data` (populate_data.py lines 179-215). -/
structure CustomerSeed where
  first_name : String
  last_name : String
  email : String
  phone : String
  address : String
deriving Repr, DecidableEq

/-- `customers_data` (populate_data.py lines 179-215). -/
def customers_data : List CustomerSeed :=
  [ { first_name := "John", last_name := "Smith",
      email := "john.smith@email.com", phone := "555-0101",
      address := "123 Main St, Boston, MA 02101" },
    { first_name := "Sarah", last_name := "Johnson",
      email := "sarah.j@email.com", phone := "555-0102",
      address := "456 Oak Ave, Cambridge, MA 02138" },
    { first_name := "Michael", last_name := "Chen",
      email := "mchen@email.com", phone := "555-0103",
      address := "789 Elm St, Brookline, MA 02445" },
    { first_name := "Emily", last_name := "Williams",
      email := "emily.w@email.com", phone := "555-0104",
      address := "321 Pine Rd, Newton, MA 02458" },
    { first_name := "David", last_name := "Martinez",
      email := "david.m@email.com", phone := "555-0105",
      address := "654 Maple Dr, Somerville, MA 02143" } ]

/-- Lookup key of the customer loop: `email` (populate_data.py line 220). -/
def customerKey (s : CustomerSeed) (c : Customer) : Bool :=
  c.email == s.email

/-- Row created by the customer loop. -/
def customerMk (s : CustomerSeed) (i : Nat) : Customer :=
  { id := i, first_name := s.first_name, last_name := s.last_name,
    email := s.email, phone := s.phone, address := s.address }

/-- One record of `bookings_data` with its references resolved and
`total_price = package.price * number_of_people` precomputed as at
populate_data.py line 273. -/
structure BookingSeed where
  customer_id : Nat
  travel_package_id : Nat
  booking_date : Int
  status : BookingStatus
  number_of_people : Int
  total_price : Money
  notes : String
deriving Repr, DecidableEq

/-- Placeholder rows for out-of-range indexing; the customer and package
loops always yield 5 rows each, so these are never actually read. -/
def noCustomer : Customer :=
  { id := 0, first_name := "", last_name := "", email := "", phone := "",
    address := "" }

/-- See `noCustomer`. -/
def noPackage : TravelPackage :=
  { id := 0, destination_id := 0, name := "", price := 0, start_date := 0,
    end_date := 0, duration_days := 0, itinerary := "", available_spots := 0 }

/-- `bookings_data` (populate_data.py lines 233-273): customer/package
pairs by index, with `total_price` computed from the referenced package. -/
def bookings_data (today : Int) (customers : List Customer)
    (packages : List TravelPackage) : List BookingSeed :=
  [ { customer_id := (customers.getD 0 noCustomer).id,
      travel_package_id := (packages.getD 0 noPackage).id,
      booking_date := today, status := .confirmed, number_of_people := 2,
      total_price := (packages.getD 0 noPackage).price * 2,
      notes := "Vegetarian meal preferences" },
    { customer_id := (customers.getD 1 noCustomer).id,
      travel_package_id := (packages.getD 2 noPackage).id,
      booking_date := today, status := .confirmed, number_of_people := 2,
      total_price := (packages.getD 2 noPackage).price * 2,
      notes := "Anniversary trip" },
    { customer_id := (customers.getD 2 noCustomer).id,
      travel_package_id := (packages.getD 3 noPackage).id,
      booking_date := today, status := .pending, number_of_people := 1,
      total_price := (packages.getD 3 noPackage).price * 1,
      notes := "Solo traveler" },
    { customer_id := (customers.getD 3 noCustomer).id,
      travel_package_id := (packages.getD 4 noPackage).id,
      booking_date := today, status := .confirmed, number_of_people := 4,
      total_price := (packages.getD 4 noPackage).price * 4,
      notes := "Family trip with 2 children" },
    { customer_id := (customers.getD 4 noCustomer).id,
      travel_package_id := (packages.getD 1 noPackage).id,
      booking_date := today, status := .pending, number_of_people := 1,
      total_price := (packages.getD 1 noPackage).price * 1,
      notes := "Interested in photography tours" } ]

/-- Lookup key of the booking loop: `customer` and `travel_package`
(populate_data.py lines 274-276). -/
def bookingKey (s : BookingSeed) (b : Booking) : Bool :=
  b.customer_id == s.customer_id && b.travel_package_id == s.travel_package_id

/-- Row created by the booking loop. -/
def bookingMk (s : BookingSeed) (i : Nat) : Booking :=
  { id := i, customer_id := s.customer_id,
    travel_package_id := s.travel_package_id,
    booking_date := s.booking_date, status := s.status,
    number_of_people := s.number_of_people, total_price := s.total_price,
    notes := s.notes }

/-- `populate_database` (populate_data.py lines 19-301): the four seeding
loops in source order, threading the database state. -/
def populate_database (today : Int) (db : DB) : Except String DB :=
  match getOrCreateMany destinationKey destinationMk
      db.destinations db.next_destination_id destinations_data with
  | .error m => .error m
  | .ok (dTable, dNext, dests) =>
    match getOrCreateMany packageKey packageMk
        db.packages db.next_package_id (packages_data today dests) with
    | .error m => .error m
    | .ok (pTable, pNext, pkgs) =>
      match getOrCreateMany customerKey customerMk
          db.customers db.next_customer_id customers_data with
      | .error m => .error m
      | .ok (cTable, cNext, custs) =>
        match getOrCreateMany bookingKey bookingMk
            db.bookings db.next_booking_id
            (bookings_data today custs pkgs) with
        | .error m => .error m
        | .ok (bTable, bNext, _) =>
          .ok { destinations := dTable, packages := pTable,
                customers := cTable, bookings := bTable,
                next_destination_id := dNext, next_package_id := pNext,
                next_customer_id := cNext, next_booking_id := bNext }

/-- The empty database. -/
def DB.empty : DB :=
  { destinations := [], packages := [], customers := [], bookings := [],
    next_destination_id := 1, next_package_id := 1, next_customer_id := 1,
    next_booking_id := 1 }

/-! ## Sample data for concrete evaluations -/

/-- A sample database with one row per table. -/
def sampleDB : DB :=
  { destinations :=
      [ { id := 1, name := "Tokyo", country := "Japan",
          description := "capital", image_url := none } ],
    packages :=
      [ { id := 1, destination_id := 1, name := "Tokyo Adventure Week",
          price := 249900, start_date := 100, end_date := 107,
          duration_days := 7, itinerary := "temples",
          available_spots := 15 } ],
    customers :=
      [ { id := 1, first_name := "John", last_name := "Smith",
          email := "john.smith@email.com", phone := "555-0101",
          address := "123 Main St" } ],
    bookings :=
      [ { id := 1, customer_id := 1, travel_package_id := 1,
          booking_date := 50, status := .pending, number_of_people := 2,
          total_price := 499800, notes := "" } ],
    next_destination_id := 2, next_package_id := 2, next_customer_id := 2,
    next_booking_id := 2 }

/-- A valid booking-creation submission against `sampleDB` leaving
`total_price` blank. -/
def sampleCreateInput : BookingFormInput :=
  { customer := 1, travel_package := 1, status := .confirmed,
    number_of_people := 2, total_price := none, notes := "" }

/-- A valid booking-creation submission against `sampleDB` with an
explicit `total_price`. -/
def sampleCreateInputPriced : BookingFormInput :=
  { customer := 1, travel_package := 1, status := .confirmed,
    number_of_people := 2, total_price := some 100000, notes := "" }

/-- An overbooking submission against `sampleDB`: 16 people for the
15-spot package. -/
def sampleOverbookInput : BookingFormInput :=
  { customer := 1, travel_package := 1, status := .confirmed,
    number_of_people := 16, total_price := none, notes := "" }

/-- A boundary submission against `sampleDB`: exactly 15 people for the
15-spot package. -/
def sampleBoundaryInput : BookingFormInput :=
  { customer := 1, travel_package := 1, status := .confirmed,
    number_of_people := 15, total_price := none, notes := "" }

/-- A valid cancellation update of booking 1 of `sampleDB`. -/
def sampleCancelInput : BookingFormInput :=
  { customer := 1, travel_package := 1, status := .cancelled,
    number_of_people := 2, total_price := some 499800, notes := "" }

/-- The conjunction of the supplied package-list filters: each absent or
empty parameter imposes no constraint; a supplied parameter constrains by
search hit, destination pk, price bounds, or availability. -/
def packageMatchesQuery (db : DB) (q : PackageListQuery)
    (p : TravelPackage) : Prop :=
  ((getParam q.search).isEmpty = true ∨
    packageSearchHit db (getParam q.search) p = true) ∧
  ((getParam q.destination).isEmpty = true ∨
    ∃ i, parseId (getParam q.destination) = some i ∧ p.destination_id = i) ∧
  ((getParam q.min_price).isEmpty = true ∨
    ∃ v, parseDecimal (getParam q.min_price) = some v ∧ v ≤ p.price) ∧
  ((getParam q.max_price).isEmpty = true ∨
    ∃ v, parseDecimal (getParam q.max_price) = some v ∧ p.price ≤ v) ∧
  ((getParam q.available_only).isEmpty = true ∨ 0 < p.available_spots)

/-- The three-destination database of the concrete filtering example:
packages Tokyo $2499, Paris $2199, Bali $1599. -/
def exampleTokyoPkg : TravelPackage :=
  { id := 1, destination_id := 1, name := "Tokyo Adventure Week",
    price := 249900, start_date := 130, end_date := 137,
    duration_days := 7, itinerary := "tokyo", available_spots := 15 }

/-- See `exampleTokyoPkg`. -/
def exampleParisPkg : TravelPackage :=
  { id := 2, destination_id := 2, name := "Romantic Paris Getaway",
    price := 219900, start_date := 160, end_date := 166,
    duration_days := 6, itinerary := "paris", available_spots := 20 }

/-- See `exampleTokyoPkg`. -/
def exampleBaliPkg : TravelPackage :=
  { id := 3, destination_id := 3, name := "Bali Beach & Culture",
    price := 159900, start_date := 140, end_date := 148,
    duration_days := 8, itinerary := "bali", available_spots := 12 }

/-- See `exampleTokyoPkg`. -/
def exampleTrioDB : DB :=
  { destinations :=
      [ { id := 1, name := "Tokyo", country := "Japan",
          description := "", image_url := none },
        { id := 2, name := "Paris", country := "France",
          description := "", image_url := none },
        { id := 3, name := "Bali", country := "Indonesia",
          description := "", image_url := none } ],
    packages := [exampleTokyoPkg, exampleParisPkg, exampleBaliPkg],
    customers := [], bookings := [],
    next_destination_id := 4, next_package_id := 4, next_customer_id := 1,
    next_booking_id := 1 }

/-- The example query: only `min_price=2000` supplied. -/
def exampleMinPriceQuery : PackageListQuery :=
  { search := none, destination := none, min_price := some "2000",
    max_price := none, available_only := none }

/-- `FoundRow table key r`: the `get()` lookup on `key` returns exactly
the row `r`. -/
def FoundRow {ρ : Type} (table : List ρ) (key : ρ → Bool) (r : ρ) : Prop :=
  table.filter key = [r]

/-! ## Claims -/

/-- C3: for every travel package submitted through the package form with
both dates present, validation fails exactly when `end_date ≤ start_date`
(including `end_date = start_date`); when `end_date` is strictly after
`start_date` the date check passes. -/
theorem C3_package_date_validation (s e : Int) :
    ((∃ m, TravelPackageForm.clean (some s) (some e) = .error m) ↔ e ≤ s) ∧
    (s < e → TravelPackageForm.clean (some s) (some e) = .ok ()) := by
  simp only [TravelPackageForm.clean]
  refine ⟨⟨fun ⟨m, hm⟩ => ?_, fun h => ?_⟩, fun h => ?_⟩
  · by_contra h
    rw [if_neg h] at hm
    exact Except.noConfusion hm
  · rw [if_pos h]
    exact ⟨_, rfl⟩
  · rw [if_neg (not_le.mpr h)]

/-- Witness for C3 at `start_date = 3`, `end_date = 4`. -/
theorem C3_package_date_validation_witness :
    TravelPackageForm.clean (some 3) (some 4) = .ok () :=
  (C3_package_date_validation 3 4).2 (by decide)

/-- C10: `BookingAdmin.save_model` overwrites `total_price` with
`number_of_people × package.price` on every new booking (`change = false`),
whatever `total_price` the form supplied; on an edit (`change = true`) the
submitted row is saved unchanged. -/
theorem C10_admin_total_price_overwrite (obj : Booking) (pkg : TravelPackage) :
    (BookingAdmin.save_model obj pkg false).total_price
        = (obj.number_of_people : Money) * pkg.price ∧
    BookingAdmin.save_model obj pkg true = obj :=
  ⟨rfl, rfl⟩

/-- C7: neither creating a booking (any status) nor updating one (e.g.
cancelling it) changes the packages table, so `available_spots` is never
decremented or restored by the booking lifecycle. -/
theorem C7_booking_lifecycle_preserves_packages :
    (∀ (db : DB) (inp : BookingFormInput) (now : Int) (db' : DB),
        BookingCreateView.submit db inp now = .ok db' →
        db'.packages = db.packages) ∧
    (∀ (db : DB) (bid : Nat) (inp : BookingFormInput) (db' : DB),
        BookingUpdateView.submit db bid inp = .ok db' →
        db'.packages = db.packages) := by
  constructor
  · intro db inp now db' h
    unfold BookingCreateView.submit at h
    split at h
    · exact Except.noConfusion h
    · split at h
      · simp only [Except.ok.injEq] at h
        subst h
        rfl
      · exact Except.noConfusion h
  · intro db bid inp db' h
    unfold BookingUpdateView.submit at h
    split at h
    · exact Except.noConfusion h
    · split at h
      · simp only [Except.ok.injEq] at h
        subst h
        rfl
      · exact Except.noConfusion h

/-- Witness for C7: a successful creation and a successful cancellation
against `sampleDB`, both leaving the packages table unchanged. -/
theorem C7_booking_lifecycle_preserves_packages_witness :
    ∃ db1 db2,
      BookingCreateView.submit sampleDB sampleCreateInput 60 = .ok db1 ∧
      db1.packages = sampleDB.packages ∧
      BookingUpdateView.submit sampleDB 1 sampleCancelInput = .ok db2 ∧
      db2.packages = sampleDB.packages := by
  obtain ⟨db1, h1⟩ : ∃ db1,
      BookingCreateView.submit sampleDB sampleCreateInput 60 = .ok db1 := ⟨_, rfl⟩
  obtain ⟨db2, h2⟩ : ∃ db2,
      BookingUpdateView.submit sampleDB 1 sampleCancelInput = .ok db2 := ⟨_, rfl⟩
  exact ⟨db1, db2, h1,
    C7_booking_lifecycle_preserves_packages.1 _ _ _ _ h1, h2,
    C7_booking_lifecycle_preserves_packages.2 _ _ _ _ h2⟩

/-- C4: deleting a `Destination` also deletes exactly the packages
referencing it and the bookings referencing those packages, leaving
customers untouched; deleting a `Customer` or a `TravelPackage` deletes
exactly the bookings referencing it, leaving the other tables untouched. -/
theorem C4_cascade_deletes :
    (∀ (db : DB) (did : Nat),
      (∀ d, d ∈ (DestinationDeleteView.submit db did).destinations ↔
          d ∈ db.destinations ∧ d.id ≠ did) ∧
      (∀ p, p ∈ (DestinationDeleteView.submit db did).packages ↔
          p ∈ db.packages ∧ p.destination_id ≠ did) ∧
      (∀ b, b ∈ (DestinationDeleteView.submit db did).bookings ↔
          b ∈ db.bookings ∧
            ¬ ∃ p, p ∈ db.packages ∧ p.destination_id = did ∧
              p.id = b.travel_package_id) ∧
      (DestinationDeleteView.submit db did).customers = db.customers) ∧
    (∀ (db : DB) (cid : Nat),
      (∀ c, c ∈ (CustomerDeleteView.submit db cid).customers ↔
          c ∈ db.customers ∧ c.id ≠ cid) ∧
      (∀ b, b ∈ (CustomerDeleteView.submit db cid).bookings ↔
          b ∈ db.bookings ∧ b.customer_id ≠ cid) ∧
      (CustomerDeleteView.submit db cid).destinations = db.destinations ∧
      (CustomerDeleteView.submit db cid).packages = db.packages) ∧
    (∀ (db : DB) (pid : Nat),
      (∀ p, p ∈ (TravelPackageDeleteView.submit db pid).packages ↔
          p ∈ db.packages ∧ p.id ≠ pid) ∧
      (∀ b, b ∈ (TravelPackageDeleteView.submit db pid).bookings ↔
          b ∈ db.bookings ∧ b.travel_package_id ≠ pid) ∧
      (TravelPackageDeleteView.submit db pid).destinations = db.destinations ∧
      (TravelPackageDeleteView.submit db pid).customers = db.customers) := by
  refine ⟨fun db did => ⟨fun d => ?_, fun p => ?_, fun b => ?_, rfl⟩,
    fun db cid => ⟨fun c => ?_, fun b => ?_, rfl, rfl⟩,
    fun db pid => ⟨fun p => ?_, fun b => ?_, rfl, rfl⟩⟩ <;>
    simp [DestinationDeleteView.submit, CustomerDeleteView.submit,
      TravelPackageDeleteView.submit, List.mem_filter, List.any_eq_false,
      Bool.not_eq_true', beq_eq_false_iff_ne]

/-- C9: supplying any of the list-view filter parameters as the empty
string yields exactly the queryset obtained by omitting the parameter:
`request.GET.get(key, '')` maps both to `''`, which is falsy. -/
theorem C9_empty_string_params_no_filter :
    (∀ (db : DB) (c : Option String),
      DestinationListView.queryset db (some "") c
        = DestinationListView.queryset db none c) ∧
    (∀ (db : DB) (s : Option String),
      DestinationListView.queryset db s (some "")
        = DestinationListView.queryset db s none) ∧
    (∀ (db : DB) (q : PackageListQuery),
      TravelPackageListView.queryset db { q with search := some "" }
        = TravelPackageListView.queryset db { q with search := none }) ∧
    (∀ (db : DB) (q : PackageListQuery),
      TravelPackageListView.queryset db { q with destination := some "" }
        = TravelPackageListView.queryset db { q with destination := none }) ∧
    (∀ (db : DB) (q : PackageListQuery),
      TravelPackageListView.queryset db { q with min_price := some "" }
        = TravelPackageListView.queryset db { q with min_price := none }) ∧
    (∀ (db : DB) (q : PackageListQuery),
      TravelPackageListView.queryset db { q with max_price := some "" }
        = TravelPackageListView.queryset db { q with max_price := none }) ∧
    (∀ (db : DB) (q : PackageListQuery),
      TravelPackageListView.queryset db { q with available_only := some "" }
        = TravelPackageListView.queryset db { q with available_only := none }) ∧
    (∀ (db : DB) (q : BookingListQuery),
      BookingListView.queryset db { q with search := some "" }
        = BookingListView.queryset db { q with search := none }) ∧
    (∀ (db : DB) (q : BookingListQuery),
      BookingListView.queryset db { q with status := some "" }
        = BookingListView.queryset db { q with status := none }) ∧
    (∀ (db : DB) (q : BookingListQuery),
      BookingListView.queryset db { q with customer := some "" }
        = BookingListView.queryset db { q with customer := none }) ∧
    (∀ (db : DB),
      CustomerListView.queryset db (some "")
        = CustomerListView.queryset db none) :=
  ⟨fun _ _ => rfl, fun _ _ => rfl, fun _ _ => rfl, fun _ _ => rfl,
   fun _ _ => rfl, fun _ _ => rfl, fun _ _ => rfl, fun _ _ => rfl,
   fun _ _ => rfl, fun _ _ => rfl, fun _ => rfl⟩

/-- With the package and a nonzero headcount present in `cleaned_data`,
`BookingForm.clean` fails exactly when the headcount exceeds the package's
recorded `available_spots`. -/
theorem BookingForm.clean_error_iff (cd : BookingCleanedData)
    (pkg : TravelPackage) (n : Int) (h1 : cd.travel_package = some pkg)
    (h2 : cd.number_of_people = some n) (hn : 1 ≤ n) :
    (∃ m, BookingForm.clean cd = .error m) ↔ pkg.available_spots < n := by
  have hz : (n == 0) = false := by simp; omega
  unfold BookingForm.clean
  rw [h1, h2]
  simp only [hz, Bool.false_eq_true, if_false]
  by_cases hlt : pkg.available_spots < n
  · simp [hlt]
  · cases hd : decimalTruthy cd.total_price <;> simp [hlt, hd]

/-- C1: a booking-form submission referencing an existing package with a
headcount of at least 1 is rejected by `BookingForm.clean` exactly when
the headcount strictly exceeds the package's recorded `available_spots`
(so the boundary case `number_of_people = available_spots` passes the
check), and an overbooking submission through the create view reports an
error, persisting nothing. -/
theorem C1_overbooking_rejected :
    (∀ (cd : BookingCleanedData) (pkg : TravelPackage) (n : Int),
        cd.travel_package = some pkg → cd.number_of_people = some n →
        1 ≤ n →
        (((∃ m, BookingForm.clean cd = .error m) ↔ pkg.available_spots < n) ∧
          (n = pkg.available_spots → ∃ cd', BookingForm.clean cd = .ok cd'))) ∧
    (∀ (db : DB) (inp : BookingFormInput) (now : Int) (pkg : TravelPackage),
        db.findPackage inp.travel_package = some pkg →
        1 ≤ inp.number_of_people →
        pkg.available_spots < inp.number_of_people →
        ∃ m, BookingCreateView.submit db inp now = .error m) := by
  constructor
  · intro cd pkg n h1 h2 hn
    refine ⟨BookingForm.clean_error_iff cd pkg n h1 h2 hn, fun hb => ?_⟩
    have hnoerr : ¬ ∃ m, BookingForm.clean cd = .error m := fun hex =>
      absurd ((BookingForm.clean_error_iff cd pkg n h1 h2 hn).mp hex) (by omega)
    cases hok : BookingForm.clean cd with
    | ok cd' => exact ⟨cd', rfl⟩
    | error m => exact absurd ⟨m, hok⟩ hnoerr
  · intro db inp now pkg hfind hn hlt
    have hz : inp.number_of_people ≠ 0 := by omega
    refine ⟨"Only " ++ toString pkg.available_spots ++
      " spots available for this package.", ?_⟩
    simp [BookingCreateView.submit, BookingForm.validate,
      BookingForm.clean, hfind, hn, hz, hlt]

/-- Witness for C1: against `sampleDB` (15 spots), a 16-person submission
errors and a 15-person `cleaned_data` passes the clean check. -/
theorem C1_overbooking_rejected_witness :
    (∃ m, BookingCreateView.submit sampleDB sampleOverbookInput 60
        = .error m) ∧
    (∃ cd', BookingForm.clean
        { customer := sampleDB.customers.head?, travel_package := sampleDB.packages.head?,
          status := .confirmed, number_of_people := some 15,
          total_price := none, notes := "" } = .ok cd') := by
  constructor
  · exact C1_overbooking_rejected.2 sampleDB sampleOverbookInput 60 _ rfl
      (by decide) (by decide)
  · exact (C1_overbooking_rejected.1 _ _ 15 rfl rfl (by decide)).2 (by decide)

/-- On a successful create-form validation, the final `cleaned_data` price
is the submitted `total_price` when one was supplied, and
`travel_package.price * number_of_people` when the field was left blank. -/
theorem BookingForm.validate_create_total (db : DB) (inp : BookingFormInput)
    (pkg : TravelPackage) (cd : BookingCleanedData)
    (hfind : db.findPackage inp.travel_package = some pkg)
    (h : BookingForm.validate db inp true = .ok cd) :
    cd.total_price = some (match inp.total_price with
      | none => pkg.price * (inp.number_of_people : Money)
      | some v => v) := by
  by_cases hn : 1 ≤ inp.number_of_people
  · have hz : (inp.number_of_people == 0) = false := by simp; omega
    cases htp : inp.total_price with
    | none =>
      simp only [BookingForm.validate, BookingForm.clean, hfind, htp,
        if_pos hn, hz, Bool.false_eq_true, if_false, decimalTruthy] at h
      split at h
      · exact Except.noConfusion h
      · rename_i cd' heq
        split at h
        · simp only [Except.ok.injEq] at h
          subst h
          split at heq
          · exact Except.noConfusion heq
          · simp only [Except.ok.injEq] at heq
            subst heq
            rfl
        · exact Except.noConfusion h
    | some v =>
      by_cases hv : (1 : Money) ≤ v
      · have hvz : (v != 0) = true := by
          simp only [bne_iff_ne, ne_eq]
          rintro rfl
          exact absurd hv (by decide)
        simp only [BookingForm.validate, BookingForm.clean, hfind, htp,
          if_pos hn, if_pos hv, hz, Bool.false_eq_true, if_false,
          decimalTruthy, hvz, if_true] at h
        split at h
        · exact Except.noConfusion h
        · rename_i cd' heq
          split at h
          · simp only [Except.ok.injEq] at h
            subst h
            split at heq
            · exact Except.noConfusion heq
            · simp only [Except.ok.injEq] at heq
              subst heq
              rfl
          · exact Except.noConfusion h
      · simp only [BookingForm.validate, BookingForm.clean, hfind, htp,
          if_pos hn, if_neg hv, hz, Bool.false_eq_true, if_false,
          decimalTruthy] at h
        split at h
        · exact Except.noConfusion h
        · simp [decide_eq_true_eq, hv] at h
  · simp only [BookingForm.validate, BookingForm.clean, hfind,
      if_neg hn] at h
    split at h
    · rename_i hcond
      simp at hcond
    · exact Except.noConfusion h

/-- C2: a successful booking-form creation appends exactly one booking;
its `total_price` is `number_of_people × package.price` when the field was
left blank, and the submitted value unchanged when one was supplied. -/
theorem C2_total_price_derived_or_kept :
    ∀ (db : DB) (inp : BookingFormInput) (now : Int) (db' : DB)
      (pkg : TravelPackage),
      db.findPackage inp.travel_package = some pkg →
      BookingCreateView.submit db inp now = .ok db' →
      ∃ b, db'.bookings = db.bookings ++ [b] ∧
        b.total_price = (match inp.total_price with
          | none => (inp.number_of_people : Money) * pkg.price
          | some v => v) := by
  intro db inp now db' pkg hfind h
  unfold BookingCreateView.submit at h
  split at h
  · exact Except.noConfusion h
  · rename_i cd hv
    split at h
    · rename_i c pkg' n tp hc hp hnn htp
      simp only [Except.ok.injEq] at h
      subst h
      refine ⟨_, rfl, ?_⟩
      have hcd := BookingForm.validate_create_total db inp pkg cd hfind hv
      rw [htp] at hcd
      simp only [Option.some.injEq] at hcd
      subst hcd
      cases inp.total_price with
      | none => exact Int.mul_comm _ _
      | some v => rfl
    · exact Except.noConfusion h

/-- Witness for C2: against `sampleDB` (package price 2499.00), a blank
`total_price` yields `2 × 249900` cents and a supplied `100000` cents is
kept. -/
theorem C2_total_price_derived_or_kept_witness :
    ∃ db1 b1 db2 b2,
      BookingCreateView.submit sampleDB sampleCreateInput 60 = .ok db1 ∧
      db1.bookings = sampleDB.bookings ++ [b1] ∧
      b1.total_price = 2 * 249900 ∧
      BookingCreateView.submit sampleDB sampleCreateInputPriced 60 = .ok db2 ∧
      db2.bookings = sampleDB.bookings ++ [b2] ∧
      b2.total_price = 100000 := by
  obtain ⟨db1, h1⟩ : ∃ x,
      BookingCreateView.submit sampleDB sampleCreateInput 60 = .ok x := ⟨_, rfl⟩
  obtain ⟨b1, hb1, ht1⟩ :=
    C2_total_price_derived_or_kept sampleDB sampleCreateInput 60 db1 _ rfl h1
  obtain ⟨db2, h2⟩ : ∃ x,
      BookingCreateView.submit sampleDB sampleCreateInputPriced 60 = .ok x :=
    ⟨_, rfl⟩
  obtain ⟨b2, hb2, ht2⟩ :=
    C2_total_price_derived_or_kept sampleDB sampleCreateInputPriced 60 db2 _
      rfl h2
  exact ⟨db1, b1, db2, b2, h1, hb1, ht1, h2, hb2, ht2⟩

/-- `charsLt` is irreflexive. -/
theorem charsLt_irrefl (as : List Char) : charsLt as as = false := by
  induction as with
  | nil => rfl
  | cons a as ih => simp [charsLt, ih]

/-- Nothing is `charsLt`-below the empty list. -/
theorem charsLt_nil_right (as : List Char) : charsLt as [] = false := by
  cases as <;> rfl

/-- `charsLt` is transitive. -/
theorem charsLt_trans : ∀ {as bs cs : List Char},
    charsLt as bs = true → charsLt bs cs = true → charsLt as cs = true
  | _, [], _, h1, _ => absurd h1 (by simp [charsLt_nil_right])
  | _, b :: bs, [], _, h2 => absurd h2 (by simp [charsLt_nil_right])
  | [], b :: bs, c :: cs, _, _ => rfl
  | a :: as, b :: bs, c :: cs, h1, h2 => by
    simp only [charsLt] at h1 h2 ⊢
    by_cases hab : a = b
    · subst hab
      rw [if_pos (by simp)] at h1
      by_cases hbc : a = c
      · subst hbc
        rw [if_pos (by simp)] at h2
        rw [if_pos (by simp)]
        exact charsLt_trans h1 h2
      · rw [if_neg (by simp [hbc])] at h2
        rw [if_neg (by simp [hbc])]
        exact h2
    · rw [if_neg (by simp [hab])] at h1
      by_cases hbc : b = c
      · subst hbc
        rw [if_neg (by simp [hab])]
        exact h1
      · rw [if_neg (by simp [hbc])] at h2
        have hac : a < c := lt_trans (of_decide_eq_true h1) (of_decide_eq_true h2)
        rw [if_neg (by simp [ne_of_lt hac])]
        exact decide_eq_true hac

/-- Trichotomy for `charsLt`. -/
theorem charsLt_trichotomy (as : List Char) : ∀ bs,
    charsLt as bs = true ∨ as = bs ∨ charsLt bs as = true := by
  induction as with
  | nil => intro bs; cases bs with
    | nil => exact Or.inr (Or.inl rfl)
    | cons b bs => exact Or.inl rfl
  | cons a as ih => intro bs; cases bs with
    | nil => exact Or.inr (Or.inr rfl)
    | cons b bs =>
      rcases lt_trichotomy a b with h | h | h
      · exact Or.inl (by simp [charsLt, ne_of_lt h, h])
      · subst h
        rcases ih bs with h | h | h
        · exact Or.inl (by simp [charsLt, h])
        · exact Or.inr (Or.inl (by rw [h]))
        · exact Or.inr (Or.inr (by simp [charsLt, h]))
      · exact Or.inr (Or.inr (by simp [charsLt, ne_of_lt h, h]))

/-- `charsLe` is `charsLt` or equality. -/
theorem charsLe_eq (as : List Char) : ∀ bs,
    charsLe as bs = (charsLt as bs || as == bs) := by
  induction as with
  | nil => intro bs; cases bs <;> rfl
  | cons a as ih => intro bs; cases bs with
    | nil => rfl
    | cons b bs =>
      by_cases hab : a = b
      · subst hab
        simp [charsLe, charsLt, ih bs]
      · simp [charsLe, charsLt, hab]

/-- `charsLe` is total. -/
theorem charsLe_total (as bs : List Char) :
    (charsLe as bs || charsLe bs as) = true := by
  rcases charsLt_trichotomy as bs with h | h | h
  · simp [charsLe_eq, h]
  · subst h; simp [charsLe_eq]
  · simp [charsLe_eq, h]

/-- `charsLe` is transitive. -/
theorem charsLe_trans {as bs cs : List Char} (h1 : charsLe as bs = true)
    (h2 : charsLe bs cs = true) : charsLe as cs = true := by
  rw [charsLe_eq] at h1 h2 ⊢
  simp only [Bool.or_eq_true, beq_iff_eq] at h1 h2 ⊢
  rcases h1 with h1 | h1
  · rcases h2 with h2 | h2
    · exact Or.inl (charsLt_trans h1 h2)
    · subst h2; exact Or.inl h1
  · subst h1; exact h2

/-- `textLex` is transitive. -/
theorem textLex_trans {α : Type} (f g : α → String) {a b c : α}
    (h1 : textLex f g a b = true) (h2 : textLex f g b c = true) :
    textLex f g a c = true := by
  simp only [textLex, strLt, strLe, Bool.or_eq_true, Bool.and_eq_true,
    beq_iff_eq] at h1 h2 ⊢
  rcases h1 with h1 | ⟨e1, l1⟩
  · rcases h2 with h2 | ⟨e2, l2⟩
    · exact Or.inl (charsLt_trans h1 h2)
    · rw [← e2]; exact Or.inl h1
  · rcases h2 with h2 | ⟨e2, l2⟩
    · rw [e1]; exact Or.inl h2
    · exact Or.inr ⟨e1.trans e2, charsLe_trans l1 l2⟩

/-- `textLex` is total. -/
theorem textLex_total {α : Type} (f g : α → String) (a b : α) :
    (textLex f g a b || textLex f g b a) = true := by
  simp only [textLex, strLt, strLe, Bool.or_eq_true, Bool.and_eq_true,
    beq_iff_eq]
  rcases charsLt_trichotomy (f a).toList (f b).toList with h | h | h
  · exact Or.inl (Or.inl h)
  · have e : f a = f b := String.toList_inj.mp h
    have := charsLe_total (g a).toList (g b).toList
    simp only [Bool.or_eq_true] at this
    rcases this with h' | h'
    · exact Or.inl (Or.inr ⟨e, h'⟩)
    · exact Or.inr (Or.inr ⟨e.symm, h'⟩)
  · exact Or.inr (Or.inl h)

/-- `intThen` is transitive when `rest` is. -/
theorem intThen_trans {α : Type} (f : α → Int) (rest : α → α → Bool)
    (hrest : ∀ a b c, rest a b = true → rest b c = true → rest a c = true)
    {a b c : α} (h1 : intThen f rest a b = true)
    (h2 : intThen f rest b c = true) : intThen f rest a c = true := by
  simp only [intThen, Bool.or_eq_true, Bool.and_eq_true, decide_eq_true_eq,
    beq_iff_eq] at h1 h2 ⊢
  rcases h1 with h1 | ⟨e1, r1⟩
  · rcases h2 with h2 | ⟨e2, r2⟩
    · exact Or.inl (lt_trans h1 h2)
    · rw [← e2]; exact Or.inl h1
  · rcases h2 with h2 | ⟨e2, r2⟩
    · rw [e1]; exact Or.inl h2
    · exact Or.inr ⟨e1.trans e2, hrest _ _ _ r1 r2⟩

/-- `intThen` is total when `rest` is. -/
theorem intThen_total {α : Type} (f : α → Int) (rest : α → α → Bool)
    (hrest : ∀ a b, (rest a b || rest b a) = true) (a b : α) :
    (intThen f rest a b || intThen f rest b a) = true := by
  simp only [intThen, Bool.or_eq_true, Bool.and_eq_true, decide_eq_true_eq,
    beq_iff_eq]
  rcases lt_trichotomy (f a) (f b) with h | h | h
  · exact Or.inl (Or.inl h)
  · have := hrest a b
    simp only [Bool.or_eq_true] at this
    rcases this with h' | h'
    · exact Or.inl (Or.inr ⟨h, h'⟩)
    · exact Or.inr (Or.inr ⟨h.symm, h'⟩)
  · exact Or.inr (Or.inl h)

/-- C8: every unfiltered list baseline is a permutation of its table,
sorted in the declared `Meta.ordering`: destinations by country then name,
packages by start date then destination (the related model's
country-then-name ordering), customers by last then first name, and
bookings by booking date descending. -/
theorem C8_default_orderings :
    (∀ db : DB, db.destinationQuerysetBase.Perm db.destinations ∧
      db.destinationQuerysetBase.Pairwise (fun a b =>
        strLt a.country b.country = true ∨
          (a.country = b.country ∧ strLe a.name b.name = true))) ∧
    (∀ db : DB, db.packageQuerysetBase.Perm db.packages ∧
      db.packageQuerysetBase.Pairwise (fun a b =>
        a.start_date < b.start_date ∨
          (a.start_date = b.start_date ∧
            (strLt (destCountry db a) (destCountry db b) = true ∨
              (destCountry db a = destCountry db b ∧
                strLe (destName db a) (destName db b) = true))))) ∧
    (∀ db : DB, db.customerQuerysetBase.Perm db.customers ∧
      db.customerQuerysetBase.Pairwise (fun a b =>
        strLt a.last_name b.last_name = true ∨
          (a.last_name = b.last_name ∧ strLe a.first_name b.first_name = true))) ∧
    (∀ db : DB, db.bookingQuerysetBase.Perm db.bookings ∧
      db.bookingQuerysetBase.Pairwise (fun a b =>
        b.booking_date ≤ a.booking_date)) := by
  refine ⟨fun db => ⟨List.perm_insertionSort _ _, ?_⟩,
    fun db => ⟨List.perm_insertionSort _ _, ?_⟩,
    fun db => ⟨List.perm_insertionSort _ _, ?_⟩,
    fun db => ⟨List.perm_insertionSort _ _, ?_⟩⟩
  · haveI : IsTotal Destination (fun a b => destinationOrdering a b = true) :=
      ⟨fun a b => by
        have := textLex_total (fun d : Destination => d.country)
          (fun d => d.name) a b
        simpa only [Bool.or_eq_true] using this⟩
    haveI : IsTrans Destination (fun a b => destinationOrdering a b = true) :=
      ⟨fun a b c => textLex_trans _ _⟩
    refine (List.sorted_insertionSort _ db.destinations).imp ?_
    intro a b h
    simpa only [destinationOrdering, textLex, Bool.or_eq_true,
      Bool.and_eq_true, beq_iff_eq] using h
  · haveI : IsTotal TravelPackage (fun a b => packageOrdering db a b = true) :=
      ⟨fun a b => by
        have := intThen_total (fun p : TravelPackage => p.start_date)
          (textLex (destCountry db) (destName db))
          (fun x y => textLex_total _ _ x y) a b
        simpa only [Bool.or_eq_true] using this⟩
    haveI : IsTrans TravelPackage (fun a b => packageOrdering db a b = true) :=
      ⟨fun a b c => intThen_trans _ _ (fun x y z => textLex_trans _ _)⟩
    refine (List.sorted_insertionSort _ db.packages).imp ?_
    intro a b h
    simpa only [packageOrdering, intThen, textLex, Bool.or_eq_true,
      Bool.and_eq_true, decide_eq_true_eq, beq_iff_eq] using h
  · haveI : IsTotal Customer (fun a b => customerOrdering a b = true) :=
      ⟨fun a b => by
        have := textLex_total (fun c : Customer => c.last_name)
          (fun c => c.first_name) a b
        simpa only [Bool.or_eq_true] using this⟩
    haveI : IsTrans Customer (fun a b => customerOrdering a b = true) :=
      ⟨fun a b c => textLex_trans _ _⟩
    refine (List.sorted_insertionSort _ db.customers).imp ?_
    intro a b h
    simpa only [customerOrdering, textLex, Bool.or_eq_true,
      Bool.and_eq_true, beq_iff_eq] using h
  · haveI : IsTotal Booking (fun a b => bookingOrdering a b = true) :=
      ⟨fun a b => by
        simp only [bookingOrdering, decide_eq_true_eq]
        omega⟩
    haveI : IsTrans Booking (fun a b => bookingOrdering a b = true) :=
      ⟨fun a b c h1 h2 => by
        simp only [bookingOrdering, decide_eq_true_eq] at h1 h2 ⊢
        omega⟩
    refine (List.sorted_insertionSort _ db.bookings).imp ?_
    intro a b h
    simpa only [bookingOrdering, decide_eq_true_eq] using h

/-- Membership through the conditional search filter. -/
theorem mem_packageSearchStage (db : DB) (sq : String)
    (qs : List TravelPackage) (p : TravelPackage) :
    (p ∈ if sq.isEmpty then qs else qs.filter (packageSearchHit db sq)) ↔
      p ∈ qs ∧ (sq.isEmpty = true ∨ packageSearchHit db sq p = true) := by
  by_cases h : sq.isEmpty = true <;> simp [h, List.mem_filter]

/-- Membership through the destination filter stage. -/
theorem packageDestinationStage_mem {df : String}
    {qs res : List TravelPackage}
    (h : packageDestinationStage df qs = .ok res) (p : TravelPackage) :
    p ∈ res ↔ p ∈ qs ∧
      (df.isEmpty = true ∨ ∃ i, parseId df = some i ∧ p.destination_id = i) := by
  unfold packageDestinationStage at h
  by_cases hdf : df.isEmpty = true
  · rw [if_pos hdf] at h
    simp only [Except.ok.injEq] at h
    subst h
    simp [hdf]
  · rw [if_neg hdf] at h
    cases hp : parseId df with
    | none => rw [hp] at h; exact Except.noConfusion h
    | some i =>
      rw [hp] at h
      simp only [Except.ok.injEq] at h
      subst h
      simp [List.mem_filter, hdf, hp]

/-- Membership through the `min_price` filter stage. -/
theorem packageMinPriceStage_mem {s : String} {qs res : List TravelPackage}
    (h : packageMinPriceStage s qs = .ok res) (p : TravelPackage) :
    p ∈ res ↔ p ∈ qs ∧
      (s.isEmpty = true ∨ ∃ v, parseDecimal s = some v ∧ v ≤ p.price) := by
  unfold packageMinPriceStage at h
  by_cases hs : s.isEmpty = true
  · rw [if_pos hs] at h
    simp only [Except.ok.injEq] at h
    subst h
    simp [hs]
  · rw [if_neg hs] at h
    cases hp : parseDecimal s with
    | none => rw [hp] at h; exact Except.noConfusion h
    | some v =>
      rw [hp] at h
      simp only [Except.ok.injEq] at h
      subst h
      simp [List.mem_filter, hs, hp]

/-- Membership through the `max_price` filter stage. -/
theorem packageMaxPriceStage_mem {s : String} {qs res : List TravelPackage}
    (h : packageMaxPriceStage s qs = .ok res) (p : TravelPackage) :
    p ∈ res ↔ p ∈ qs ∧
      (s.isEmpty = true ∨ ∃ v, parseDecimal s = some v ∧ p.price ≤ v) := by
  unfold packageMaxPriceStage at h
  by_cases hs : s.isEmpty = true
  · rw [if_pos hs] at h
    simp only [Except.ok.injEq] at h
    subst h
    simp [hs]
  · rw [if_neg hs] at h
    cases hp : parseDecimal s with
    | none => rw [hp] at h; exact Except.noConfusion h
    | some v =>
      rw [hp] at h
      simp only [Except.ok.injEq] at h
      subst h
      simp [List.mem_filter, hs, hp]

/-- Membership through the `available_only` filter stage. -/
theorem packageAvailableStage_mem (s : String) (qs : List TravelPackage)
    (p : TravelPackage) :
    p ∈ packageAvailableStage s qs ↔
      p ∈ qs ∧ (s.isEmpty = true ∨ 0 < p.available_spots) := by
  unfold packageAvailableStage
  by_cases h : s.isEmpty = true <;> simp [h, List.mem_filter]

/-- Membership through the whole package filter pipeline. -/
theorem TravelPackageListView.querysetFilter_mem (db : DB)
    (q : PackageListQuery) {qs res : List TravelPackage}
    (h : TravelPackageListView.querysetFilter db q qs = .ok res)
    (p : TravelPackage) :
    p ∈ res ↔ p ∈ qs ∧ packageMatchesQuery db q p := by
  simp only [TravelPackageListView.querysetFilter] at h
  cases hd : packageDestinationStage (getParam q.destination)
      (if (getParam q.search).isEmpty then qs
       else qs.filter (packageSearchHit db (getParam q.search))) with
  | error m => rw [hd] at h; exact Except.noConfusion h
  | ok qs2 =>
    rw [hd] at h
    simp only [Except.bind] at h
    cases hmin : packageMinPriceStage (getParam q.min_price) qs2 with
    | error m => rw [hmin] at h; exact Except.noConfusion h
    | ok qs3 =>
      rw [hmin] at h
      simp only [Except.bind] at h
      cases hmax : packageMaxPriceStage (getParam q.max_price) qs3 with
      | error m => rw [hmax] at h; exact Except.noConfusion h
      | ok qs4 =>
        rw [hmax] at h
        simp only [Except.bind, Except.ok.injEq] at h
        subst h
        rw [packageAvailableStage_mem, packageMaxPriceStage_mem hmax,
          packageMinPriceStage_mem hmin, packageDestinationStage_mem hd,
          mem_packageSearchStage db (getParam q.search) qs p]
        simp only [packageMatchesQuery, and_assoc]

/-- C5: the package list returns exactly the packages satisfying the
conjunction of all supplied filters (absent parameters impose no
constraint); in particular, on packages {Tokyo $2499, Paris $2199,
Bali $1599} the single filter `min_price=2000` returns exactly
{Tokyo, Paris}. -/
theorem C5_package_list_filter_conjunction :
    (∀ (db : DB) (q : PackageListQuery) (res : List TravelPackage),
        TravelPackageListView.queryset db q = .ok res →
        ∀ p, p ∈ res ↔ p ∈ db.packages ∧ packageMatchesQuery db q p) ∧
    TravelPackageListView.queryset exampleTrioDB exampleMinPriceQuery
      = .ok [exampleTokyoPkg, exampleParisPkg] := by
  constructor
  · intro db q res h p
    rw [TravelPackageListView.querysetFilter_mem db q h p]
    have hb : p ∈ db.packageQuerysetBase ↔ p ∈ db.packages :=
      (List.perm_insertionSort _ _).mem_iff
    rw [hb]
  · rfl

/-- Witness for C5: Tokyo is in the filtered result, hence in the table
and matching the supplied filter. -/
theorem C5_package_list_filter_conjunction_witness :
    exampleTokyoPkg ∈ exampleTrioDB.packages ∧
      packageMatchesQuery exampleTrioDB exampleMinPriceQuery exampleTokyoPkg :=
  (C5_package_list_filter_conjunction.1 exampleTrioDB exampleMinPriceQuery
      [exampleTokyoPkg, exampleParisPkg]
      C5_package_list_filter_conjunction.2 exampleTokyoPkg).mp (by simp)

/-- A `get_or_create` whose key already resolves to `r` returns the table
unchanged and the found row. -/
theorem getOrCreateRow_found {ρ : Type} {t : List ρ} {k : ρ → Bool}
    {mk : Nat → ρ} {n : Nat} {r : ρ} (h : FoundRow t k r) :
    getOrCreateRow t n k mk = .ok (t, n, r) := by
  unfold FoundRow at h
  simp [getOrCreateRow, h]

/-- After a successful `get_or_create` whose created row matches its own
key, the key resolves to the returned row. -/
theorem getOrCreateRow_establishes {ρ : Type} {t t' : List ρ}
    {k : ρ → Bool} {mk : Nat → ρ} {n n' : Nat} {r : ρ}
    (hk : ∀ i, k (mk i) = true)
    (h : getOrCreateRow t n k mk = .ok (t', n', r)) : FoundRow t' k r := by
  unfold getOrCreateRow at h
  cases hf : t.filter k with
  | nil =>
    rw [hf] at h
    simp only [Except.ok.injEq, Prod.mk.injEq] at h
    obtain ⟨ht, -, hr⟩ := h
    subst ht
    subst hr
    simp [FoundRow, List.filter_append, hf, hk]
  | cons x xs =>
    cases xs with
    | nil =>
      rw [hf] at h
      simp only [Except.ok.injEq, Prod.mk.injEq] at h
      obtain ⟨ht, -, hr⟩ := h
      subst ht
      subst hr
      exact hf
    | cons y ys => rw [hf] at h; exact Except.noConfusion h

/-- A successful `get_or_create` on another key leaves an established
lookup intact, provided a created row can only match the first key when
the two keys agree on every row. -/
theorem getOrCreateRow_preserves {ρ : Type} {t t' : List ρ}
    {k k' : ρ → Bool} {mk' : Nat → ρ} {n n' : Nat} {r r' : ρ}
    (hfound : FoundRow t k r)
    (hcross : ∀ i, k (mk' i) = true → ∀ x, k x = k' x)
    (h : getOrCreateRow t n k' mk' = .ok (t', n', r')) : FoundRow t' k r := by
  unfold getOrCreateRow at h
  cases hf : t.filter k' with
  | nil =>
    rw [hf] at h
    simp only [Except.ok.injEq, Prod.mk.injEq] at h
    obtain ⟨ht, -, -⟩ := h
    subst ht
    have hnew : k (mk' n) = false := by
      by_contra hmk
      have hmk : k (mk' n) = true := by
        cases hcase : k (mk' n)
        · exact absurd hcase hmk
        · rfl
      have hpt : t.filter k = t.filter k' :=
        List.filter_congr (fun x _ => hcross n hmk x)
      rw [hfound] at hpt
      rw [hf] at hpt
      exact List.noConfusion hpt
    unfold FoundRow
    rw [List.filter_append]
    unfold FoundRow at hfound
    simp [hfound, hnew]
  | cons x xs =>
    cases xs with
    | nil =>
      rw [hf] at h
      simp only [Except.ok.injEq, Prod.mk.injEq] at h
      obtain ⟨ht, -, -⟩ := h
      subst ht
      exact hfound
    | cons y ys => rw [hf] at h; exact Except.noConfusion h

/-- Re-running a seeding loop on a table where every record's key already
resolves to its collected row changes nothing. -/
theorem getOrCreateMany_rerun {ρ σ : Type} {keyOf : σ → ρ → Bool}
    {mkOf : σ → Nat → ρ} {t : List ρ} {n : Nat} {data : List σ}
    {rs : List ρ}
    (h : List.Forall₂ (fun d r => FoundRow t (keyOf d) r) data rs) :
    getOrCreateMany keyOf mkOf t n data = .ok (t, n, rs) := by
  induction h with
  | nil => rfl
  | cons h1 _ ih =>
    simp [getOrCreateMany, getOrCreateRow_found h1, ih]

/-- A whole successful seeding loop preserves an established lookup under
the cross-key condition. -/
theorem getOrCreateMany_preserves {ρ σ : Type} {keyOf : σ → ρ → Bool}
    {mkOf : σ → Nat → ρ} {k : ρ → Bool} {r : ρ} :
    ∀ {data : List σ} {t : List ρ} {n : Nat} {t' : List ρ} {n' : Nat}
      {rs : List ρ},
      FoundRow t k r →
      (∀ d ∈ data, ∀ i, k (mkOf d i) = true → ∀ x, k x = keyOf d x) →
      getOrCreateMany keyOf mkOf t n data = .ok (t', n', rs) →
      FoundRow t' k r := by
  intro data
  induction data with
  | nil =>
    intro t n t' n' rs hf _ h
    simp only [getOrCreateMany, Except.ok.injEq, Prod.mk.injEq] at h
    obtain ⟨ht, -, -⟩ := h
    subst ht
    exact hf
  | cons d ds ih =>
    intro t n t' n' rs hf hcross h
    unfold getOrCreateMany at h
    cases hrow : getOrCreateRow t n (keyOf d) (mkOf d) with
    | error m => rw [hrow] at h; exact Except.noConfusion h
    | ok res =>
      obtain ⟨t1, n1, r1⟩ := res
      rw [hrow] at h
      dsimp only at h
      cases hmany : getOrCreateMany keyOf mkOf t1 n1 ds with
      | error m => rw [hmany] at h; exact Except.noConfusion h
      | ok res2 =>
        obtain ⟨t2, n2, rs2⟩ := res2
        rw [hmany] at h
        simp only [Except.ok.injEq, Prod.mk.injEq] at h
        obtain ⟨ht, -, -⟩ := h
        subst ht
        have hf1 : FoundRow t1 k r :=
          getOrCreateRow_preserves hf
            (hcross d (List.mem_cons_self d ds)) hrow
        exact ih hf1
          (fun d' hd' => hcross d' (List.mem_cons_of_mem d hd')) hmany

/-- After a successful seeding loop, each record's key resolves to the
collected row in the final table. -/
theorem getOrCreateMany_establishes {ρ σ : Type} {keyOf : σ → ρ → Bool}
    {mkOf : σ → Nat → ρ} :
    ∀ {data : List σ} {t : List ρ} {n : Nat} {t' : List ρ} {n' : Nat}
      {rs : List ρ},
      (∀ d ∈ data, ∀ i, keyOf d (mkOf d i) = true) →
      (∀ d ∈ data, ∀ d' ∈ data, ∀ i, keyOf d (mkOf d' i) = true →
        ∀ x, keyOf d x = keyOf d' x) →
      getOrCreateMany keyOf mkOf t n data = .ok (t', n', rs) →
      List.Forall₂ (fun d r => FoundRow t' (keyOf d) r) data rs := by
  intro data
  induction data with
  | nil =>
    intro t n t' n' rs _ _ h
    simp only [getOrCreateMany, Except.ok.injEq, Prod.mk.injEq] at h
    obtain ⟨-, -, hrs⟩ := h
    subst hrs
    exact List.Forall₂.nil
  | cons d ds ih =>
    intro t n t' n' rs hself hcross h
    unfold getOrCreateMany at h
    cases hrow : getOrCreateRow t n (keyOf d) (mkOf d) with
    | error m => rw [hrow] at h; exact Except.noConfusion h
    | ok res =>
      obtain ⟨t1, n1, r1⟩ := res
      rw [hrow] at h
      dsimp only at h
      cases hmany : getOrCreateMany keyOf mkOf t1 n1 ds with
      | error m => rw [hmany] at h; exact Except.noConfusion h
      | ok res2 =>
        obtain ⟨t2, n2, rs2⟩ := res2
        rw [hmany] at h
        simp only [Except.ok.injEq, Prod.mk.injEq] at h
        obtain ⟨ht, -, hrs⟩ := h
        subst ht
        subst hrs
        have hf1 : FoundRow t1 (keyOf d) r1 :=
          getOrCreateRow_establishes
            (hself d (List.mem_cons_self d ds)) hrow
        have hf2 : FoundRow t2 (keyOf d) r1 :=
          getOrCreateMany_preserves hf1
            (fun d' hd' =>
              hcross d (List.mem_cons_self d ds) d'
                (List.mem_cons_of_mem d hd'))
            hmany
        exact List.Forall₂.cons hf2
          (ih (fun d' hd' => hself d' (List.mem_cons_of_mem d hd'))
            (fun a ha b hb =>
              hcross a (List.mem_cons_of_mem d ha) b
                (List.mem_cons_of_mem d hb))
            hmany)

/-- A created destination row matches its own lookup key. -/
theorem destinationKey_self (s : DestinationSeed) (i : Nat) :
    destinationKey s (destinationMk s i) = true := by
  simp [destinationKey, destinationMk]

/-- A created destination row matches another record's key only when the
two keys agree on every row. -/
theorem destinationKey_cross (s s' : DestinationSeed) (i : Nat)
    (h : destinationKey s (destinationMk s' i) = true) (x : Destination) :
    destinationKey s x = destinationKey s' x := by
  simp only [destinationKey, destinationMk, Bool.and_eq_true,
    beq_iff_eq] at h
  simp [destinationKey, h.1, h.2]

/-- A created package row matches its own lookup key. -/
theorem packageKey_self (s : PackageSeed) (i : Nat) :
    packageKey s (packageMk s i) = true := by
  simp [packageKey, packageMk]

/-- A created package row matches another record's key only when the two
keys agree on every row. -/
theorem packageKey_cross (s s' : PackageSeed) (i : Nat)
    (h : packageKey s (packageMk s' i) = true) (x : TravelPackage) :
    packageKey s x = packageKey s' x := by
  simp only [packageKey, packageMk, Bool.and_eq_true, beq_iff_eq] at h
  simp [packageKey, h.1, h.2]

/-- A created customer row matches its own lookup key. -/
theorem customerKey_self (s : CustomerSeed) (i : Nat) :
    customerKey s (customerMk s i) = true := by
  simp [customerKey, customerMk]

/-- A created customer row matches another record's key only when the two
keys agree on every row. -/
theorem customerKey_cross (s s' : CustomerSeed) (i : Nat)
    (h : customerKey s (customerMk s' i) = true) (x : Customer) :
    customerKey s x = customerKey s' x := by
  simp only [customerKey, customerMk, beq_iff_eq] at h
  simp [customerKey, h]

/-- A created booking row matches its own lookup key. -/
theorem bookingKey_self (s : BookingSeed) (i : Nat) :
    bookingKey s (bookingMk s i) = true := by
  simp [bookingKey, bookingMk]

/-- A created booking row matches another record's key only when the two
keys agree on every row. -/
theorem bookingKey_cross (s s' : BookingSeed) (i : Nat)
    (h : bookingKey s (bookingMk s' i) = true) (x : Booking) :
    bookingKey s x = bookingKey s' x := by
  simp only [bookingKey, bookingMk, Bool.and_eq_true, beq_iff_eq] at h
  simp [bookingKey, h.1, h.2]

/-- The package lookup keys do not depend on the run date, so established
lookups transfer between seeding runs with different dates. -/
theorem packages_data_found_transfer (t₂ : Int) {T : List TravelPackage}
    {t₁ : Int} {ds : List Destination} {rs : List TravelPackage}
    (h : List.Forall₂ (fun s r => FoundRow T (packageKey s) r)
      (packages_data t₁ ds) rs) :
    List.Forall₂ (fun s r => FoundRow T (packageKey s) r)
      (packages_data t₂ ds) rs := by
  simp only [packages_data] at h ⊢
  cases h with | cons h1 h =>
  cases h with | cons h2 h =>
  cases h with | cons h3 h =>
  cases h with | cons h4 h =>
  cases h with | cons h5 h =>
  cases h with | nil =>
  exact .cons h1 (.cons h2 (.cons h3 (.cons h4 (.cons h5 .nil))))

/-- The booking lookup keys do not depend on the run date either. -/
theorem bookings_data_found_transfer (t₂ : Int) {T : List Booking}
    {t₁ : Int}
    {cs : List Customer} {ps : List TravelPackage} {rs : List Booking}
    (h : List.Forall₂ (fun s r => FoundRow T (bookingKey s) r)
      (bookings_data t₁ cs ps) rs) :
    List.Forall₂ (fun s r => FoundRow T (bookingKey s) r)
      (bookings_data t₂ cs ps) rs := by
  simp only [bookings_data] at h ⊢
  cases h with | cons h1 h =>
  cases h with | cons h2 h =>
  cases h with | cons h3 h =>
  cases h with | cons h4 h =>
  cases h with | cons h5 h =>
  cases h with | nil =>
  exact .cons h1 (.cons h2 (.cons h3 (.cons h4 (.cons h5 .nil))))

/-- Re-running the seeding routine on any state it has already produced —
on any run dates — changes nothing: every `get_or_create` finds its row. -/
theorem populate_database_idempotent (t₁ t₂ : Int) (db db₁ : DB)
    (h : populate_database t₁ db = .ok db₁) :
    populate_database t₂ db₁ = .ok db₁ := by
  unfold populate_database at h
  cases hd : getOrCreateMany destinationKey destinationMk db.destinations
      db.next_destination_id destinations_data with
  | error m => rw [hd] at h; exact Except.noConfusion h
  | ok res1 =>
    obtain ⟨dT, dN, dests⟩ := res1
    rw [hd] at h
    dsimp only at h
    cases hp : getOrCreateMany packageKey packageMk db.packages
        db.next_package_id (packages_data t₁ dests) with
    | error m => rw [hp] at h; exact Except.noConfusion h
    | ok res2 =>
      obtain ⟨pT, pN, pkgs⟩ := res2
      rw [hp] at h
      dsimp only at h
      cases hc : getOrCreateMany customerKey customerMk db.customers
          db.next_customer_id customers_data with
      | error m => rw [hc] at h; exact Except.noConfusion h
      | ok res3 =>
        obtain ⟨cT, cN, custs⟩ := res3
        rw [hc] at h
        dsimp only at h
        cases hb : getOrCreateMany bookingKey bookingMk db.bookings
            db.next_booking_id (bookings_data t₁ custs pkgs) with
        | error m => rw [hb] at h; exact Except.noConfusion h
        | ok res4 =>
          obtain ⟨bT, bN, bks⟩ := res4
          rw [hb] at h
          dsimp only at h
          simp only [Except.ok.injEq] at h
          subst h
          have fd :=
            getOrCreateMany_establishes
              (fun s _ i => destinationKey_self s i)
              (fun s _ s' _ i hk x => destinationKey_cross s s' i hk x) hd
          have fp :=
            getOrCreateMany_establishes
              (fun s _ i => packageKey_self s i)
              (fun s _ s' _ i hk x => packageKey_cross s s' i hk x) hp
          have fc :=
            getOrCreateMany_establishes
              (fun s _ i => customerKey_self s i)
              (fun s _ s' _ i hk x => customerKey_cross s s' i hk x) hc
          have fb :=
            getOrCreateMany_establishes
              (fun s _ i => bookingKey_self s i)
              (fun s _ s' _ i hk x => bookingKey_cross s s' i hk x) hb
          have fp₂ := packages_data_found_transfer t₂ fp
          have fb₂ := bookings_data_found_transfer t₂ fb
          unfold populate_database
          dsimp only
          rw [getOrCreateMany_rerun fd]
          dsimp only
          rw [getOrCreateMany_rerun fp₂]
          dsimp only
          rw [getOrCreateMany_rerun fc]
          dsimp only
          rw [getOrCreateMany_rerun fb₂]

/-- C6: running the seeding routine a second time — from any state the
routine has already produced, on any pair of run dates — leaves the
database exactly as it was (each `get_or_create` re-uses the row its key
pair finds: destinations by (name, country), packages by
(name, destination), customers by email, bookings by
(customer, travel_package)); and one run from the empty database yields
exactly 5 destinations, 5 packages, 5 customers and 5 bookings, so a
second run still leaves 5 destinations, not 10. -/
theorem C6_seeding_idempotent :
    (∀ (t₁ t₂ : Int) (db db₁ : DB),
        populate_database t₁ db = .ok db₁ →
        populate_database t₂ db₁ = .ok db₁) ∧
    (∀ t : Int, ∃ db₁, populate_database t DB.empty = .ok db₁ ∧
        db₁.destinations.length = 5 ∧ db₁.packages.length = 5 ∧
        db₁.customers.length = 5 ∧ db₁.bookings.length = 5) := by
  refine ⟨populate_database_idempotent, fun t => ⟨_, rfl, rfl, rfl, rfl, rfl⟩⟩

/-- Witness for C6: seeding the empty database at date 0, then re-seeding
at date 5, keeps the same 5-destination state. -/
theorem C6_seeding_idempotent_witness :
    ∃ db₁, populate_database 0 DB.empty = .ok db₁ ∧
      populate_database 5 db₁ = .ok db₁ ∧
      db₁.destinations.length = 5 := by
  obtain ⟨db₁, h, hlen, -, -, -⟩ := C6_seeding_idempotent.2 0
  exact ⟨db₁, h, C6_seeding_idempotent.1 0 5 DB.empty db₁ h, hlen⟩
